import Mathlib

/-!
# Shallow embedding of the `Logger` class (src/index.js)

The repository is a small Node.js logging utility.  This file embeds its
data model and operations in Lean and proves the claims of the
specification against the embedding.

Modelling conventions:
* JavaScript variadic log arguments are lists of `Value` (string, integer
  number, boolean), converted to text by `Value.toJSString` which mirrors
  `String(arg)`.
* The nondeterministic timestamp `new Date().toISOString()` is passed in
  as an explicit `date : String` argument.
* Side effects of one log call are collected in a `LogResult` record:
  the callback invocations (severity name and arguments), the strings
  appended to the log file, the strings passed to `console.log`, and the
  JavaScript exception (if any) that propagates out of the call.
* The file system is a partial map from paths to contents,
  `FS := String → Option String`; only the constructor touches it.
-/

/-- JavaScript values that can be passed to the variadic log methods
(restricted to strings, integer numbers and booleans, which is all the
claims use). -/
inductive Value where
  | str (s : String)
  | num (n : Int)
  | bool (b : Bool)
deriving DecidableEq, Repr

/-- `String(arg)`: the generic JavaScript to-string conversion used in
`#getFormattedMessage`. -/
def Value.toJSString : Value → String
  | .str s => s
  | .num n => toString n
  | .bool b => if b then "true" else "false"

/-- A JavaScript exception: either an `Error` with a message (the code
throws `new Error("No log file path provided")`) or an arbitrary value
thrown by a user callback. -/
inductive JsErr where
  | jsError (msg : String)
  | custom (n : Nat)
deriving DecidableEq, Repr

/-- The error thrown by `#logToFile` when the file sink is enabled but no
path is configured (the spec calls it `ConfigurationError`). -/
def configurationError : JsErr := .jsError "No log file path provided"

/-- The four message severities of `LOG_TYPES`. -/
inductive LogType where
  | DEBUG
  | INFO
  | WARN
  | ERROR
deriving DecidableEq, Repr

/-- The string name of a severity (the value stored in `LOG_TYPES`). -/
def sevName : LogType → String
  | .DEBUG => "DEBUG"
  | .INFO => "INFO"
  | .WARN => "WARN"
  | .ERROR => "ERROR"

/-- `LOG_LEVELS`: the numeric ordinal of each severity. -/
def LOG_LEVELS : LogType → Int
  | .DEBUG => 0
  | .INFO => 1
  | .WARN => 2
  | .ERROR => 3

/-- `Object.values(LOG_TYPES)`, the list of recognized severity names
checked by `Logger.on`. -/
def logTypeNames : List String := ["DEBUG", "INFO", "WARN", "ERROR"]

/-- A registered callback: it receives the argument list and either
returns normally (`none`) or throws (`some e`). -/
def Cb : Type := List Value → Option JsErr

/-- The second argument of `Logger.on`: either a function or some
non-callable value (`typeof cb !== "function"`). -/
inductive CbArg where
  | func (f : Cb)
  | notFunc (v : Value)

/-- JavaScript truthiness of an optional string: `undefined` and the
empty string are falsy. -/
def strTruthy : Option String → Bool
  | none => false
  | some s => !(s == "")

/-- The file system: a map from paths to file contents. -/
def FS : Type := String → Option String

/-- Update the file system at one path. -/
def FS.set (fs : FS) (p : String) (v : Option String) : FS :=
  fun q => if q = p then v else fs q

/-- The state of a `Logger` instance: the configuration fields set by the
constructor plus the callback table `this.cb` (keyed by severity name). -/
structure Logger where
  logToFile : Bool
  logToConsole : Bool
  logFilePath : Option String
  level : Int
  clearFile : Bool
  cb : String → Option Cb

/-- The constructor's options object; `none` means the property is absent
(so the destructuring default applies). -/
structure Opts where
  logToFile : Option Bool
  logToConsole : Option Bool
  logFilePath : Option String
  level : Option Int
  clearFile : Option Bool

/-- The `Logger` constructor: normalizes the options
(`logToFile || false`, `logFilePath || undefined`,
`level === undefined ? LOG_LEVELS.INFO : level`) and, when the file sink
is enabled with a truthy path, unlinks any existing file at that path and,
if `clearFile` is set, recreates it empty. -/
def Logger.construct (o : Opts) (fs : FS) : Logger × FS :=
  let lg : Logger :=
    { logToFile := o.logToFile.getD false
      logToConsole := o.logToConsole.getD false
      logFilePath := if strTruthy o.logFilePath then o.logFilePath else none
      level := o.level.getD (LOG_LEVELS .INFO)
      clearFile := o.clearFile.getD false
      cb := fun _ => none }
  let fsOut : FS :=
    if lg.logToFile && strTruthy lg.logFilePath then
      match lg.logFilePath with
      | some p =>
        let fs1 := if (fs p).isSome then fs.set p none else fs
        if lg.clearFile then fs1.set p (some "") else fs1
      | none => fs
    else fs
  (lg, fsOut)

/-- `#getFormattedMessage`: stringify each argument, join with a single
space, append one newline. -/
def getFormattedMessage (message : List Value) : String :=
  String.intercalate " " (message.map Value.toJSString) ++ "\n"

/-- `#logToFile`: when the file sink is enabled, throws if the path is
falsy, otherwise appends the message; returns the list of strings
appended to the file. -/
def Logger.logToFileWrite (lg : Logger) (message : String) :
    Except JsErr (List String) :=
  if lg.logToFile then
    if strTruthy lg.logFilePath then .ok [message]
    else .error configurationError
  else .ok []

/-- `#logToConsole`: the list of strings passed to `console.log`. -/
def Logger.logToConsoleWrite (lg : Logger) (message : String) : List String :=
  if lg.logToConsole then [message] else []

/-- The severity filter plus `#log`: if the configured level exceeds the
call's ordinal the method returns with no output; otherwise the message
is formatted and written to the file sink (which may throw, skipping the
console sink) and then the console sink.  Returns
(file writes, console writes, propagated error). -/
def Logger.emitPhase (lg : Logger) (t : LogType) (date : String)
    (message : List Value) : List String × List String × Option JsErr :=
  if lg.level > LOG_LEVELS t then ([], [], none)
  else
    let payloadString := getFormattedMessage message
    let logMessage := date ++ " [" ++ sevName t ++ "] " ++ payloadString
    match lg.logToFileWrite logMessage with
    | .error e => ([], [], some e)
    | .ok fw => (fw, lg.logToConsoleWrite logMessage, none)

/-- All observable effects of one call to a log method. -/
structure LogResult where
  cbCalls : List (String × List Value)
  fileWrites : List String
  consoleWrites : List String
  error : Option JsErr
deriving DecidableEq, Repr

/-- The common body of `debug`/`info`/`warn`/`error`: invoke the
registered callback (if any) with the same arguments — a throw there
propagates and aborts the rest — then filter by level and emit. -/
def Logger.callAt (lg : Logger) (t : LogType) (date : String)
    (message : List Value) : LogResult :=
  match lg.cb (sevName t) with
  | none =>
    let out := lg.emitPhase t date message
    { cbCalls := [], fileWrites := out.1, consoleWrites := out.2.1,
      error := out.2.2 }
  | some f =>
    match f message with
    | some e =>
      { cbCalls := [(sevName t, message)], fileWrites := [],
        consoleWrites := [], error := some e }
    | none =>
      let out := lg.emitPhase t date message
      { cbCalls := [(sevName t, message)], fileWrites := out.1,
        consoleWrites := out.2.1, error := out.2.2 }

/-- `Logger.debug`. -/
def Logger.debug (lg : Logger) (date : String) (message : List Value) :
    LogResult := lg.callAt .DEBUG date message

/-- `Logger.info`. -/
def Logger.info (lg : Logger) (date : String) (message : List Value) :
    LogResult := lg.callAt .INFO date message

/-- `Logger.warn`. -/
def Logger.warn (lg : Logger) (date : String) (message : List Value) :
    LogResult := lg.callAt .WARN date message

/-- `Logger.error`. -/
def Logger.error (lg : Logger) (date : String) (message : List Value) :
    LogResult := lg.callAt .ERROR date message

/-- `Logger.on`: registers a callback for a severity name; a no-op when
the name is not recognized or the argument is not a function. -/
def Logger.on (lg : Logger) (level : String) (cbArg : CbArg) : Logger :=
  if level ∈ logTypeNames then
    match cbArg with
    | .func f =>
      { lg with cb := fun k => if k = level then some f else lg.cb k }
    | .notFunc _ => lg
  else lg

/-- One log call of a sequence: severity, timestamp of the call, and the
variadic arguments. -/
structure Call where
  t : LogType
  date : String
  message : List Value

/-- Run a sequence of log calls (the logger state is immutable under the
log methods, so each call starts from the same state). -/
def Logger.runSeq (lg : Logger) (cs : List Call) : List LogResult :=
  cs.map fun c => lg.callAt c.t c.date c.message

/-!
## The older implementation (src/unnamed/part_000)

Same `Logger` class without the callback table, without `on`, and with a
constructor that performs no file-system actions.
-/

/-- The state of the older `Logger` (src/unnamed/part_000): the same
configuration fields but no `clearFile` option and no callback table. -/
structure OldLogger where
  logToFile : Bool
  logToConsole : Bool
  logFilePath : Option String
  level : Int

/-- Constructor options of the older `Logger`. -/
structure OldOpts where
  logToFile : Option Bool
  logToConsole : Option Bool
  logFilePath : Option String
  level : Option Int

/-- The older constructor: the same normalization, no file-system
effects. -/
def OldLogger.construct (o : OldOpts) : OldLogger :=
  { logToFile := o.logToFile.getD false
    logToConsole := o.logToConsole.getD false
    logFilePath := if strTruthy o.logFilePath then o.logFilePath else none
    level := o.level.getD (LOG_LEVELS .INFO) }

/-- Observable effects of one call to an older log method (no callbacks
exist there). -/
structure OldLogResult where
  fileWrites : List String
  consoleWrites : List String
  error : Option JsErr
deriving DecidableEq, Repr

/-- `#logToFile` of the older implementation (textually identical to the
current one). -/
def OldLogger.logToFileWrite (lg : OldLogger) (message : String) :
    Except JsErr (List String) :=
  if lg.logToFile then
    if strTruthy lg.logFilePath then .ok [message]
    else .error configurationError
  else .ok []

/-- `#logToConsole` of the older implementation. -/
def OldLogger.logToConsoleWrite (lg : OldLogger) (message : String) :
    List String :=
  if lg.logToConsole then [message] else []

/-- The common body of the older `debug`/`info`/`warn`/`error`: filter by
level, then `#log` (format, file sink, console sink).  There is no
callback step. -/
def OldLogger.callAt (lg : OldLogger) (t : LogType) (date : String)
    (message : List Value) : OldLogResult :=
  if lg.level > LOG_LEVELS t then
    { fileWrites := [], consoleWrites := [], error := none }
  else
    let payloadString := getFormattedMessage message
    let logMessage := date ++ " [" ++ sevName t ++ "] " ++ payloadString
    match lg.logToFileWrite logMessage with
    | .error e => { fileWrites := [], consoleWrites := [], error := some e }
    | .ok fw =>
      { fileWrites := fw, consoleWrites := lg.logToConsoleWrite logMessage,
        error := none }

/-- Run a sequence of log calls on the older logger. -/
def OldLogger.runSeq (lg : OldLogger) (cs : List Call) : List OldLogResult :=
  cs.map fun c => lg.callAt c.t c.date c.message

/-- The sink-and-error projection of a current-implementation result,
used to compare the two implementations. -/
def LogResult.sinks (r : LogResult) : List String × List String × Option JsErr :=
  (r.fileWrites, r.consoleWrites, r.error)

/-- The sink-and-error projection of an older-implementation result. -/
def OldLogResult.sinks (r : OldLogResult) :
    List String × List String × Option JsErr :=
  (r.fileWrites, r.consoleWrites, r.error)

/-!
## Concrete fixtures used by witnesses and counterexamples
-/

/-- A file system holding one file `t.log` with stale content. -/
def fsW : FS := fun q => if q = "t.log" then some "old" else none

/-- A callback that returns normally. -/
def cbF : Cb := fun _ => none

/-- A callback that throws an arbitrary (non-`Error`) value. -/
def cbThrow : Cb := fun _ => some (.custom 7)

/-- Well-configured logger: both sinks enabled, path set, level `DEBUG`. -/
def lgW1 : Logger :=
  { logToFile := true, logToConsole := true, logFilePath := some "t.log",
    level := 0, clearFile := false, cb := fun _ => none }

/-- Misconfigured logger: file sink enabled, no path, default level. -/
def lgW4 : Logger :=
  { logToFile := true, logToConsole := false, logFilePath := none,
    level := 1, clearFile := false, cb := fun _ => none }

/-- Logger with a normal callback registered for `WARN` and a minimum
level above `WARN`. -/
def lgW5 : Logger :=
  { logToFile := false, logToConsole := false, logFilePath := none,
    level := 3, clearFile := false,
    cb := fun k => if k = "WARN" then some cbF else none }

/-- Logger with a throwing callback registered for `ERROR` and both
sinks enabled. -/
def lgW6 : Logger :=
  { logToFile := true, logToConsole := true, logFilePath := some "t.log",
    level := 0, clearFile := false,
    cb := fun k => if k = "ERROR" then some cbThrow else none }

/-!
## Helper lemmas
-/

/-- Spec-side rendition of the joined argument list: the pieces joined
with a single ASCII space between consecutive pieces. -/
def spaceJoined : List String → String
  | [] => ""
  | [s] => s
  | s :: ss => s ++ " " ++ spaceJoined ss

/-- The tail of a space-join: each piece preceded by one space. -/
def spaceTailJoin : List String → String
  | [] => ""
  | a :: as => " " ++ a ++ spaceTailJoin as

lemma intercalate_go_eq (as : List String) (acc : String) :
    String.intercalate.go acc " " as = acc ++ spaceTailJoin as := by
  induction as generalizing acc with
  | nil => simp [String.intercalate.go, spaceTailJoin]
  | cons a as ih =>
    simp [String.intercalate.go, spaceTailJoin, ih, String.append_assoc]

lemma spaceJoined_cons (a : String) (as : List String) :
    spaceJoined (a :: as) = a ++ spaceTailJoin as := by
  induction as generalizing a with
  | nil => simp [spaceJoined, spaceTailJoin]
  | cons b bs ih =>
    simp [spaceJoined, spaceTailJoin, ih, String.append_assoc]

lemma intercalate_space_eq_spaceJoined (l : List String) :
    String.intercalate " " l = spaceJoined l := by
  cases l with
  | nil => rfl
  | cons a as =>
    simp [String.intercalate, intercalate_go_eq, spaceJoined_cons]

lemma emitPhase_spec (lg : Logger) (t : LogType) (date : String)
    (msg : List Value)
    (hpath : lg.logToFile = true → strTruthy lg.logFilePath = true) :
    lg.emitPhase t date msg
      = ((if lg.logToFile = true ∧ lg.level ≤ LOG_LEVELS t
            then [date ++ " [" ++ sevName t ++ "] " ++ getFormattedMessage msg]
            else []),
         (if lg.logToConsole = true ∧ lg.level ≤ LOG_LEVELS t
            then [date ++ " [" ++ sevName t ++ "] " ++ getFormattedMessage msg]
            else []),
         none) := by
  unfold Logger.emitPhase Logger.logToFileWrite Logger.logToConsoleWrite
  rcases lt_or_ge (LOG_LEVELS t) lg.level with hlt | hge
  · rw [if_pos hlt]
    have : ¬ lg.level ≤ LOG_LEVELS t := not_le.mpr hlt
    simp [this]
  · rw [if_neg (not_lt.mpr hge)]
    by_cases hf : lg.logToFile = true
    · have hle : lg.level ≤ LOG_LEVELS t := hge
      simp [hf, hpath hf, hle]
    · have hf' : lg.logToFile = false := by
        cases h : lg.logToFile
        · rfl
        · exact absurd h hf
      have hle : lg.level ≤ LOG_LEVELS t := hge
      simp [hf', hle]

lemma cbCalls_of_cb_some (lg : Logger) (t : LogType) (date : String)
    (msg : List Value) (f : Cb) (h : lg.cb (sevName t) = some f) :
    (lg.callAt t date msg).cbCalls = [(sevName t, msg)] := by
  cases hm : f msg <;> simp [Logger.callAt, h, hm]

lemma callAt_sinks_eq_old (lg : Logger) (ol : OldLogger) (t : LogType)
    (date : String) (msg : List Value)
    (h1 : lg.logToFile = ol.logToFile) (h2 : lg.logToConsole = ol.logToConsole)
    (h3 : lg.logFilePath = ol.logFilePath) (h4 : lg.level = ol.level)
    (hcb : lg.cb (sevName t) = none) :
    (lg.callAt t date msg).sinks = (ol.callAt t date msg).sinks := by
  simp only [Logger.callAt, hcb, Logger.emitPhase, OldLogger.callAt,
    Logger.logToFileWrite, OldLogger.logToFileWrite,
    Logger.logToConsoleWrite, OldLogger.logToConsoleWrite,
    LogResult.sinks, OldLogResult.sinks, h1, h2, h3, h4]
  split
  · rfl
  · split <;> rfl

lemma construct_call_sinks (ltf ltc cf : Option Bool) (lfp : Option String)
    (lvl : Option Int) (fs : FS) (t : LogType) (date : String)
    (msg : List Value) :
    ((Logger.construct ⟨ltf, ltc, lfp, lvl, cf⟩ fs).1.callAt t date msg).sinks
      = ((OldLogger.construct ⟨ltf, ltc, lfp, lvl⟩).callAt t date msg).sinks := by
  exact callAt_sinks_eq_old _ _ t date msg rfl rfl rfl rfl rfl

/-!
## The claims
-/

/-- C1 (counterexample to the claim as stated): a logger constructed with
`logToFile = true`, `logToConsole = true`, `level = 0` and no
`logFilePath` has its console sink enabled and `ordinal(ERROR) ≥ m`, yet
a call to `error` delivers nothing to the console sink (nor to the file
sink): the missing-path throw in `#logToFile` aborts the emission. -/
theorem C1_counterexample :
    ((Logger.construct ⟨some true, some true, none, some 0, none⟩
        (fun _ => none)).1).logToConsole = true
    ∧ ((Logger.construct ⟨some true, some true, none, some 0, none⟩
        (fun _ => none)).1).level ≤ LOG_LEVELS .ERROR
    ∧ (((Logger.construct ⟨some true, some true, none, some 0, none⟩
        (fun _ => none)).1).error "D" [.str "x"]).consoleWrites = []
    ∧ (((Logger.construct ⟨some true, some true, none, some 0, none⟩
        (fun _ => none)).1).error "D" [.str "x"]).fileWrites = [] := by
  refine ⟨rfl, by decide, rfl, rfl⟩

/-- C1 (amended): provided the file sink, when enabled, has a truthy
`logFilePath`, and any callback registered for the severity returns
normally, the formatted message reaches each enabled sink iff
`ordinal(s) ≥ m` (the configured minimum), and when `ordinal(s) < m`
nothing is emitted to either sink; no error propagates. -/
theorem C1_sink_filter_amended (lg : Logger) (t : LogType) (date : String)
    (msg : List Value)
    (hpath : lg.logToFile = true → strTruthy lg.logFilePath = true)
    (hcb : ∀ f, lg.cb (sevName t) = some f → f msg = none) :
    (lg.callAt t date msg).fileWrites
      = (if lg.logToFile = true ∧ lg.level ≤ LOG_LEVELS t
          then [date ++ " [" ++ sevName t ++ "] " ++ getFormattedMessage msg]
          else [])
    ∧ (lg.callAt t date msg).consoleWrites
      = (if lg.logToConsole = true ∧ lg.level ≤ LOG_LEVELS t
          then [date ++ " [" ++ sevName t ++ "] " ++ getFormattedMessage msg]
          else [])
    ∧ (lg.callAt t date msg).error = none := by
  unfold Logger.callAt
  cases hc : lg.cb (sevName t) with
  | none => simp [emitPhase_spec lg t date msg hpath]
  | some f =>
    simp [hcb f hc, emitPhase_spec lg t date msg hpath]

/-- C1 witness: the amended theorem applied to a well-configured logger
(`lgW1`, both sinks on, path set, level 0) at severity `INFO`. -/
theorem C1_sink_filter_witness :
    (lgW1.callAt .INFO "D" [.str "x"]).fileWrites
      = (if lgW1.logToFile = true ∧ lgW1.level ≤ LOG_LEVELS .INFO
          then ["D" ++ " [" ++ sevName .INFO ++ "] "
                  ++ getFormattedMessage [.str "x"]]
          else [])
    ∧ (lgW1.callAt .INFO "D" [.str "x"]).consoleWrites
      = (if lgW1.logToConsole = true ∧ lgW1.level ≤ LOG_LEVELS .INFO
          then ["D" ++ " [" ++ sevName .INFO ++ "] "
                  ++ getFormattedMessage [.str "x"]]
          else [])
    ∧ (lgW1.callAt .INFO "D" [.str "x"]).error = none :=
  C1_sink_filter_amended lgW1 .INFO "D" [.str "x"] (fun _ => by decide)
    (fun f h => Option.noConfusion h)

/-- C2: constructing with `logToFile = true`, a nonempty `logFilePath`
`p`, and a pre-existing file at `p`: with the clear-file option true the
file at `p` exists and is empty after construction; with it false the
file at `p` is absent after construction. -/
theorem C2_clear_file (fs : FS) (p : String) (content : String)
    (ltc : Option Bool) (lvl : Option Int)
    (hp : p ≠ "") (hpre : fs p = some content) :
    (Logger.construct ⟨some true, ltc, some p, lvl, some true⟩ fs).2 p
      = some ""
    ∧ (Logger.construct ⟨some true, ltc, some p, lvl, some false⟩ fs).2 p
      = none := by
  constructor <;>
    simp [Logger.construct, strTruthy, hp, FS.set, hpre]

/-- C2 witness: the theorem applied to a file system holding `t.log`
with content `"old"`. -/
theorem C2_clear_file_witness :
    (Logger.construct ⟨some true, none, some "t.log", none, some true⟩
        fsW).2 "t.log" = some ""
    ∧ (Logger.construct ⟨some true, none, some "t.log", none, some false⟩
        fsW).2 "t.log" = none :=
  C2_clear_file fsW "t.log" "old" none none (by decide) (by rfl)

/-- C3: for `Logger({logToConsole: true, level: 1})`, `debug("x")`
produces no output at all (console, file, callback or error), and
`info("x")` passes exactly one line to the console stream, namely the
timestamp followed by `" [INFO] x\n"`, with no file write and no
error. -/
theorem C3_console_scenario (date : String) :
    (((Logger.construct ⟨none, some true, none, some 1, none⟩
        (fun _ => none)).1.debug date [.str "x"])
      = { cbCalls := [], fileWrites := [], consoleWrites := [],
          error := none })
    ∧ ((Logger.construct ⟨none, some true, none, some 1, none⟩
        (fun _ => none)).1.info date [.str "x"]).consoleWrites
      = [date ++ " [INFO] x\n"]
    ∧ ((Logger.construct ⟨none, some true, none, some 1, none⟩
        (fun _ => none)).1.info date [.str "x"]).fileWrites = []
    ∧ ((Logger.construct ⟨none, some true, none, some 1, none⟩
        (fun _ => none)).1.info date [.str "x"]).error = none := by
  refine ⟨rfl, ?_, rfl, rfl⟩
  show [date ++ " [" ++ "INFO" ++ "] " ++ ("x" ++ "\n")]
    = [date ++ " [INFO] x\n"]
  simp [String.append_assoc]

/-- C4: with `logToFile = true` and `logFilePath` unset (and any
registered callback for the severity returning normally), a log call at
severity with ordinal at least the configured minimum propagates the
missing-path `ConfigurationError`, while a call below the minimum
raises no error. -/
theorem C4_missing_path (lg : Logger) (t : LogType) (date : String)
    (msg : List Value)
    (hf : lg.logToFile = true) (hp : lg.logFilePath = none)
    (hcb : ∀ f, lg.cb (sevName t) = some f → f msg = none) :
    (lg.level ≤ LOG_LEVELS t →
      (lg.callAt t date msg).error = some configurationError)
    ∧ (LOG_LEVELS t < lg.level → (lg.callAt t date msg).error = none) := by
  have hemit : lg.emitPhase t date msg
      = (if lg.level > LOG_LEVELS t then ([], [], none)
          else ([], [], some configurationError)) := by
    unfold Logger.emitPhase Logger.logToFileWrite
    by_cases hlt : lg.level > LOG_LEVELS t
    · simp [hlt]
    · simp [hlt, hf, hp, strTruthy]
  constructor
  · intro hle
    have hnlt : ¬ lg.level > LOG_LEVELS t := not_lt.mpr hle
    cases hc : lg.cb (sevName t) with
    | none => simp [Logger.callAt, hc, hemit, hnlt]
    | some f => simp [Logger.callAt, hc, hcb f hc, hemit, hnlt]
  · intro hlt
    have hlt' : lg.level > LOG_LEVELS t := hlt
    cases hc : lg.cb (sevName t) with
    | none => simp [Logger.callAt, hc, hemit, hlt']
    | some f => simp [Logger.callAt, hc, hcb f hc, hemit, hlt']

/-- C4 witness: the theorem applied at the misconfigured logger `lgW4`
(level `INFO`): `error` raises the `ConfigurationError`, `debug` raises
nothing. -/
theorem C4_missing_path_witness :
    (lgW4.callAt .ERROR "D" [.str "x"]).error = some configurationError
    ∧ (lgW4.callAt .DEBUG "D" [.str "x"]).error = none :=
  ⟨(C4_missing_path lgW4 .ERROR "D" [.str "x"] rfl rfl
      (fun f h => Option.noConfusion h)).1 (by decide),
   (C4_missing_path lgW4 .DEBUG "D" [.str "x"] rfl rfl
      (fun f h => Option.noConfusion h)).2 (by decide)⟩

/-- C5: a callback registered for severity `s` is invoked, with the same
argument sequence, on every call to the `s`-level method, whatever the
configured minimum; in particular below the minimum, where no sink
receives anything. -/
theorem C5_callback_always_fires (lg : Logger) (t : LogType)
    (date : String) (msg : List Value) (f : Cb)
    (h : lg.cb (sevName t) = some f) :
    (lg.callAt t date msg).cbCalls = [(sevName t, msg)]
    ∧ (lg.level > LOG_LEVELS t →
        (lg.callAt t date msg).fileWrites = []
        ∧ (lg.callAt t date msg).consoleWrites = []) := by
  refine ⟨cbCalls_of_cb_some lg t date msg f h, fun hlt => ?_⟩
  cases hm : f msg <;>
    simp [Logger.callAt, h, hm, Logger.emitPhase, hlt]

/-- C5 witness: the theorem applied to `lgW5` (callback on `WARN`,
minimum level `ERROR`): the callback fires with the arguments of the
call even though the severity is filtered out. -/
theorem C5_callback_always_fires_witness :
    (lgW5.callAt .WARN "D" [.num 5]).cbCalls = [("WARN", [.num 5])]
    ∧ (lgW5.callAt .WARN "D" [.num 5]).fileWrites = []
    ∧ (lgW5.callAt .WARN "D" [.num 5]).consoleWrites = [] :=
  ⟨(C5_callback_always_fires lgW5 .WARN "D" [.num 5] cbF rfl).1,
   ((C5_callback_always_fires lgW5 .WARN "D" [.num 5] cbF rfl).2
      (by decide)).1,
   ((C5_callback_always_fires lgW5 .WARN "D" [.num 5] cbF rfl).2
      (by decide)).2⟩

/-- C6: when the registered callback throws, the exception propagates
out of the log method and the call produces no file write and no
console write — the whole result is just the callback invocation plus
the propagated error. -/
theorem C6_callback_throw_aborts (lg : Logger) (t : LogType)
    (date : String) (msg : List Value) (f : Cb) (e : JsErr)
    (hcb : lg.cb (sevName t) = some f) (hthrow : f msg = some e) :
    lg.callAt t date msg
      = { cbCalls := [(sevName t, msg)], fileWrites := [],
          consoleWrites := [], error := some e } := by
  simp [Logger.callAt, hcb, hthrow]

/-- C6 witness: the theorem applied to `lgW6` (throwing callback on
`ERROR`, both sinks enabled and configured): the sinks receive
nothing. -/
theorem C6_callback_throw_aborts_witness :
    lgW6.callAt .ERROR "D" [.str "x"]
      = { cbCalls := [("ERROR", [.str "x"])], fileWrites := [],
          consoleWrites := [], error := some (.custom 7) } :=
  C6_callback_throw_aborts lgW6 .ERROR "D" [.str "x"] cbThrow
    (.custom 7) rfl rfl

/-- C7: the rendered message body is the arguments' generic string
conversions joined by single ASCII spaces with exactly one newline
appended (shown against an independent recursive rendition of the
space-join), and on `["a", 1, true]` it is `"a 1 true\n"`. -/
theorem C7_formatting :
    (∀ message : List Value,
      getFormattedMessage message
        = spaceJoined (message.map Value.toJSString) ++ "\n")
    ∧ getFormattedMessage [.str "a", .num 1, .bool true] = "a 1 true\n" := by
  constructor
  · intro message
    simp [getFormattedMessage, intercalate_space_eq_spaceJoined]
  · decide

/-- C8: `on` with a severity name outside the four recognized ones, or
with a non-callable second argument, raises nothing and leaves the
logger (in particular its whole callback table) unchanged. -/
theorem C8_on_invalid_noop (lg : Logger) (name : String) (arg : CbArg)
    (h : name ∉ logTypeNames ∨ ∃ v, arg = CbArg.notFunc v) :
    lg.on name arg = lg := by
  unfold Logger.on
  rcases h with h | ⟨v, rfl⟩
  · rw [if_neg h]
  · split <;> rfl

/-- C8 witness: the theorem applied to `lgW5` with the unrecognized
severity name `"TRACE"`. -/
theorem C8_on_invalid_noop_witness :
    lgW5.on "TRACE" (CbArg.func cbF) = lgW5 :=
  C8_on_invalid_noop lgW5 "TRACE" (CbArg.func cbF) (Or.inl (by decide))

/-- C9: registering `f` then `g` for the same severity leaves exactly
`g` registered for it (replacement, not stacking), and a subsequent call
at that severity performs exactly one callback invocation. -/
theorem C9_on_replaces (lg : Logger) (t : LogType) (f g : Cb)
    (date : String) (msg : List Value) :
    ((lg.on (sevName t) (.func f)).on (sevName t) (.func g)).cb (sevName t)
      = some g
    ∧ ((((lg.on (sevName t) (.func f)).on (sevName t) (.func g)).callAt
          t date msg).cbCalls = [(sevName t, msg)]) := by
  have hmem : sevName t ∈ logTypeNames := by cases t <;> decide
  have hcb : ((lg.on (sevName t) (.func f)).on (sevName t) (.func g)).cb
      (sevName t) = some g := by
    unfold Logger.on
    rw [if_pos hmem]
    simp [if_pos hmem]
  exact ⟨hcb, cbCalls_of_cb_some _ t date msg g hcb⟩

/-- C10: for every configuration and every sequence of log calls, the
current implementation (src/index.js, which has an empty callback table
right after construction) and the older implementation
(src/unnamed/part_000) produce identical file writes, console writes
and errors on each call. -/
theorem C10_old_new_equivalence (ltf ltc cf : Option Bool)
    (lfp : Option String) (lvl : Option Int) (fs : FS) (cs : List Call) :
    ((Logger.construct ⟨ltf, ltc, lfp, lvl, cf⟩ fs).1.runSeq cs).map
        LogResult.sinks
      = ((OldLogger.construct ⟨ltf, ltc, lfp, lvl⟩).runSeq cs).map
        OldLogResult.sinks := by
  induction cs with
  | nil => rfl
  | cons c cs ih =>
    simp only [Logger.runSeq, OldLogger.runSeq, List.map_cons] at ih ⊢
    rw [ih]
    rw [construct_call_sinks ltf ltc cf lfp lvl fs c.t c.date c.message]
